import Mathlib

/-
  Verification of the AI Object Rotator workflow (App.tsx + geminiService.ts).

  The program is a client-side orchestration pipeline: one uploaded image is
  turned into three angle prompts (one adapter call) and then three rendered
  images (three strictly sequential adapter calls with a 1000 ms pause between
  successive calls).  The mutable React state (originalImage, generatedImages,
  isLoading, status, error) is modelled as the record `WorkflowState`; each
  `setXxx` call of the source is an explicit event (`Ev`), and a run produces
  the trace of those events together with the final state obtained by
  replaying the trace.  The two remote calls are modelled by an environment
  (`Env`) giving the outcome of the prompt-derivation call and of each render
  call, exactly as a test double would.
-/

namespace ObjectRotator

/-- Structure `GeneratedImage` (App.tsx lines 9-12): a rendered image data URI together
with the prompt that produced it. -/
structure GeneratedImage where
  src : String
  prompt : String
deriving DecidableEq, Repr

/-- The five React state cells of `App` (App.tsx lines 15-20) that the spec
groups into the single record `WorkflowState`.  `originalImage = none` models
the `null` initial value; `status`/`error` are the `status` and `error`
strings (empty string = unset, matching JS truthiness). -/
structure WorkflowState where
  originalImage : Option String
  generatedImages : List GeneratedImage
  isLoading : Bool
  status : String
  error : String
deriving DecidableEq, Repr

/-- The initial values of the five `useState` cells (App.tsx lines 15-20). -/
def initialState : WorkflowState :=
  { originalImage := none, generatedImages := [], isLoading := false,
    status := "", error := "" }

/-- Function `resetState` (App.tsx lines 22-28): sets every one of the five state
cells back to its initial value, regardless of the current state. -/
def resetState (_s : WorkflowState) : WorkflowState :=
  { originalImage := none, generatedImages := [], isLoading := false,
    status := "", error := "" }

/-- One observable state mutation performed during a run: each constructor is
one `setXxx` call of the source (or the awaited `setTimeout` pause, or the
render-service call itself, which we record so that call ordering and
throttling are visible in the trace). -/
inductive Ev where
  | setStatus (m : String)
  | renderCall (i : Nat)
  | setGeneratedImages (l : List GeneratedImage)
  | sleep (ms : Nat)
  | setError (e : String)
  | setLoadingFalse
deriving DecidableEq, Repr

/-- Effect of one event on the state; `renderCall` and `sleep` do not touch
the state. -/
def applyEv (s : WorkflowState) : Ev → WorkflowState
  | .setStatus m => { s with status := m }
  | .renderCall _ => s
  | .setGeneratedImages l => { s with generatedImages := l }
  | .sleep _ => s
  | .setError e => { s with error := e }
  | .setLoadingFalse => { s with isLoading := false }

/-- Replay a trace of events from a starting state. -/
def replay (s : WorkflowState) (tr : List Ev) : WorkflowState :=
  tr.foldl applyEv s

/-- Outcomes of the two remote calls of one run, as a test double would fix
them: the result of `getRotationPrompts` and the result of the `i`-th
`generateRotatedImage` call.  `Except.error e` is a rejected promise whose
`Error` has message `e`. -/
structure Env where
  promptsResult : Except String (List String)
  renderResult : Nat → Except String String

/-- The status string set before the prompt-derivation call
(App.tsx line 54). -/
def analyzingStatus : String := "1/4: Analyzing camera angle..."

/-- The status string set before the `i`-th render call (App.tsx line 63);
note the leading space of the template literal. -/
def genStatus (i : Nat) : String :=
  " " ++ toString (i + 2) ++ "/4: Generating rotated view " ++ toString (i + 1) ++ " of 3..."

/-- The error message thrown when fewer than 3 prompts come back
(App.tsx line 58). -/
def promptsCountError : String :=
  "Could not determine rotation angles. Please try another image."

/-- The distinguished quota message (App.tsx line 75). -/
def quotaMessage : String :=
  "Quota exhausted. The free tier for the image model has been used up. Please check your Google AI Studio plan or wait a few hours before trying again."

/-- Whether the second character list occurs at the start of the first. -/
def charsStartWith : List Char → List Char → Bool
  | _, [] => true
  | [], _ :: _ => false
  | a :: as, b :: bs => a == b && charsStartWith as bs

/-- Whether the second character list occurs contiguously anywhere inside the
first. -/
def charsContain : List Char → List Char → Bool
  | [], pat => charsStartWith [] pat
  | a :: as, pat => charsStartWith (a :: as) pat || charsContain as pat

/-- JavaScript `String.prototype.includes`: substring containment. -/
def includes (s pat : String) : Bool :=
  charsContain s.toList pat.toList

/-- The catch-block classification of App.tsx lines 74-78: a message
mentioning `RESOURCE_EXHAUSTED` or `429` becomes the distinguished quota
message, anything else is surfaced verbatim. -/
def classifyError (msg : String) : String :=
  if includes msg "RESOURCE_EXHAUSTED" || includes msg "429" then quotaMessage
  else msg

/-- The `for (let i = 0; i < 3; i++)` loop of `processImage`
(App.tsx lines 61-70), as a fuel recursion: `fuel` is the number of remaining
iterations (3 at entry), `i` the loop counter, `acc` the local `newImages`
array.  Returns the emitted events and, on a rejected render call, the error
message.  Each successful call pushes onto `newImages` and commits a copy via
`setGeneratedImages`; after every iteration except the last (`i < 2`) the
loop awaits a 1000 ms timeout. -/
def renderLoopAux (env : Env) (prompts : List String) :
    Nat → Nat → List GeneratedImage → List Ev × Option String
  | 0, _, _ => ([], none)
  | fuel + 1, i, acc =>
    match env.renderResult i with
    | .error e => ([.setStatus (genStatus i), .renderCall i], some e)
    | .ok img =>
      let acc' := acc ++ [{ src := img, prompt := prompts.getD i "" }]
      let rest := renderLoopAux env prompts fuel (i + 1) acc'
      (.setStatus (genStatus i) :: .renderCall i :: .setGeneratedImages acc' ::
        ((if i < 2 then [Ev.sleep 1000] else []) ++ rest.1), rest.2)

/-- The `try` block of `processImage` (App.tsx lines 53-71): set the
analyzing status, obtain the prompts, throw if fewer than 3, run the render
loop, and on full success set the completion status.  Returns the events of
the block and the thrown error, if any. -/
def tryPhase (env : Env) : List Ev × Option String :=
  match env.promptsResult with
  | .error e => ([.setStatus analyzingStatus], some e)
  | .ok prompts =>
    if prompts.length < 3 then
      ([.setStatus analyzingStatus], some promptsCountError)
    else
      let r := renderLoopAux env prompts 3 0 []
      match r.2 with
      | some e => (.setStatus analyzingStatus :: r.1, some e)
      | none => (.setStatus analyzingStatus :: (r.1 ++ [.setStatus "Processing complete!"]), none)

/-- Function `processImage` (App.tsx lines 52-83): the try block, then the catch block
(classify the error, set the `Failed` status), then the finally block
(clear the loading flag).  Returns the final state and the full event
trace of the run. -/
def processImage (env : Env) (s : WorkflowState) : WorkflowState × List Ev :=
  let t := tryPhase env
  let tr := t.1 ++
    (match t.2 with
     | some e => [Ev.setError (classifyError e), Ev.setStatus "Failed"]
     | none => []) ++ [Ev.setLoadingFalse]
  (replay s tr, tr)

/-- Abstraction of the service response seen by `getRotationPrompts`
(geminiService.ts lines 313-325): either `JSON.parse(response.text)` threw,
or it produced a value whose `prompts` field is an array of strings
(`parsed (some l)`) or is missing / not an array / the value is falsy
(`parsed none`). -/
inductive ParseOutcome where
  | parseError
  | parsed (promptsField : Option (List String))

/-- Message thrown from the catch block of `getRotationPrompts`. -/
def parseFailMessage : String :=
  "The AI failed to return valid rotation instructions. Please try a different image."

/-- Message thrown when the parsed response does not match the expected
shape. -/
def malformedMessage : String :=
  "Could not get valid rotation prompts from the AI. The response was malformed."

/-- Validation logic of `getRotationPrompts` (geminiService.ts lines
313-325): a parse failure raises the parse-failure message; a parsed value is
returned only when `result.prompts` is an array of length exactly 3,
otherwise the fall-through `throw` raises the malformed-response message. -/
def getRotationPrompts (resp : ParseOutcome) : Except String (List String) :=
  match resp with
  | .parseError => .error parseFailMessage
  | .parsed none => .error malformedMessage
  | .parsed (some prompts) =>
    if prompts.length = 3 then .ok prompts else .error malformedMessage

/-- Predicate `isFinished` (App.tsx line 117): the download-eligibility predicate.
Note that it consults only the loading flag and the image count. -/
def isFinished (s : WorkflowState) : Bool :=
  !s.isLoading && s.generatedImages.length == 3

/-- The generated-image archive entries built by the loop of
`handleDownloadZip` (App.tsx lines 97-100): entry `generated_{i+1}.png`
holds the blob fetched from `generatedImages[i].src` (blobs are modelled by
their data-URI strings). -/
def zipGeneratedEntries (gen : List GeneratedImage) : List (String × String) :=
  (List.range gen.length).map
    (fun i => ("generated_" ++ toString (i + 1) ++ ".png",
      (gen.getD i { src := "", prompt := "" }).src))

/-- Function `handleDownloadZip` (App.tsx lines 85-115): a no-op when `originalImage`
is falsy or fewer than 3 generated images exist; otherwise it builds the
archive (`original.png` first, then the generated entries in order) and sets
the completion status, or on an archive-creation failure (`zipOk = false`)
sets the ZIP error and the `Failed` status.  Returns the new state and the
archive entry list when one was produced. -/
def handleDownloadZip (zipOk : Bool) (s : WorkflowState) :
    WorkflowState × Option (List (String × String)) :=
  if s.originalImage.getD "" = "" ∨ s.generatedImages.length < 3 then (s, none)
  else if zipOk then
    ({ s with status := "Download complete!" },
      some (("original.png", s.originalImage.getD "") :: zipGeneratedEntries s.generatedImages))
  else
    ({ s with error := "Failed to create ZIP file.", status := "Failed" }, none)

/-- Function `handleImageUpload` (App.tsx lines 30-50): reset, raise the loading flag
and the reading status; on a successful file read (`readOk = true`) store the
data URI built from the file type and base64 payload and run `processImage`;
on a read error set the read-failure message, clear loading and status. -/
def uploadStep (fileType b64 : String) (readOk : Bool) (env : Env)
    (s : WorkflowState) : WorkflowState :=
  let s1 := { resetState s with isLoading := true, status := "Reading image..." }
  if readOk then
    let s2 := { s1 with originalImage := some ("data:" ++ fileType ++ ";base64," ++ b64) }
    (processImage env s2).1
  else
    { s1 with error := "Failed to read the image file.", isLoading := false, status := "" }

/-- The state transition of clicking the download button. -/
def downloadStep (zipOk : Bool) (s : WorkflowState) : WorkflowState :=
  (handleDownloadZip zipOk s).1

/-- The steady states the App can observe: each constructor is one complete
user interaction, guarded exactly as the UI guards it (the file input is
rendered only while `originalImage` is falsy and disabled while loading,
App.tsx lines 130-136; the download and reset buttons are rendered only when
`isFinished` and disabled while loading, lines 177-188). -/
inductive Reachable : WorkflowState → Prop where
  | init : Reachable initialState
  | upload (s : WorkflowState) (fileType b64 : String) (readOk : Bool) (env : Env) :
      Reachable s → s.isLoading = false → s.originalImage.getD "" = "" →
      Reachable (uploadStep fileType b64 readOk env s)
  | download (s : WorkflowState) (zipOk : Bool) :
      Reachable s → isFinished s = true → s.isLoading = false →
      Reachable (downloadStep zipOk s)
  | reset (s : WorkflowState) :
      Reachable s → isFinished s = true → s.isLoading = false →
      Reachable (resetState s)

/-! ### The committed-list view of a trace

`genSets` collects the successive arguments of the `setGeneratedImages`
events of a trace; the generated-image list of the replayed state is always
the last committed list. -/

/-- The committed list carried by a `setGeneratedImages` event. -/
def genPayload : Ev → Option (List GeneratedImage)
  | .setGeneratedImages l => some l
  | _ => none

/-- All lists committed by `setGeneratedImages` events, in trace order. -/
def genSets (tr : List Ev) : List (List GeneratedImage) :=
  tr.filterMap genPayload

/-- Whether an event is a `setGeneratedImages` commit. -/
def isSetGen (e : Ev) : Bool := (genPayload e).isSome

/-- Number of `setGeneratedImages` commits in a trace; each successful
render call performs exactly one. -/
def setGenCount (tr : List Ev) : Nat := (tr.filter isSetGen).length

/-- Whether an event is a render call that succeeds in environment `env`. -/
def isOkCall (env : Env) : Ev → Bool
  | .renderCall i => match env.renderResult i with | .ok _ => true | .error _ => false
  | _ => false

/-! ### Concrete run used by the counterexamples and witnesses -/

/-- A test double in which the adapter returns three prompts and every
render call succeeds. -/
def envAllOk : Env :=
  { promptsResult := .ok ["p1", "p2", "p3"], renderResult := fun _ => .ok "IMG" }

/-- The state after a fully successful run started from the initial state. -/
def runOkState : WorkflowState :=
  uploadStep "image/png" "QUJD" true envAllOk initialState

/-- The state after an archive-creation failure following a fully successful
run. -/
def zipFailState : WorkflowState := downloadStep false runOkState

/-- Environment whose adapter call yields only two prompts. -/
def envShortPrompts : Env :=
  { promptsResult := .ok ["a", "b"], renderResult := fun _ => .ok "IMG" }

/-- Environment whose render call 1 fails after a successful call 0. -/
def envFailAt1 : Env :=
  { promptsResult := .ok ["p1", "p2", "p3"],
    renderResult := fun i => if i = 0 then .ok "IMG" else .error "boom" }

/-- Whether an event is a render call or a pause. -/
def isCallOrSleep : Ev → Bool
  | .renderCall _ => true
  | .sleep _ => true
  | _ => false

/-- A run in environment `env` fails with underlying error message `e`:
either the prompt-derivation call rejects with `e`, or prompts are obtained
and the first failing render call rejects with `e`. -/
def runFailsWith (env : Env) (e : String) : Prop :=
  env.promptsResult = .error e ∨
  ∃ ps, env.promptsResult = .ok ps ∧ 3 ≤ ps.length ∧
    ∃ i, i < 3 ∧ env.renderResult i = .error e ∧
      ∀ j, j < i → ∃ g, env.renderResult j = .ok g

/-- Environment whose prompt-derivation call rejects with a rate-limit
message. -/
def envQuota : Env :=
  { promptsResult := .error "got status 429 from service",
    renderResult := fun _ => .ok "IMG" }

/-- The status strings that describe progress of a run or of the archive
export (the stage labels of App.tsx lines 36, 54, 63 and 88). -/
def isProgressStatus (m : String) : Bool :=
  m == "Reading image..." || m == analyzingStatus || m == genStatus 0 ||
    m == genStatus 1 || m == genStatus 2 || m == "Creating ZIP file..."

/-! ### Characterization of the four run shapes

One lemma per place a run can stop: prompt-derivation failure, fewer than 3
prompts, failure of render call 0, 1 or 2, and full success.  Each gives the
exact final state and event trace of `processImage`. -/

lemma run_promptsFail (env : Env) (s : WorkflowState) (e : String)
    (h : env.promptsResult = .error e) :
    processImage env s =
      ({ s with isLoading := false, status := "Failed", error := classifyError e },
       [.setStatus analyzingStatus, .setError (classifyError e), .setStatus "Failed",
        .setLoadingFalse]) := by
  simp [processImage, tryPhase, h, replay, applyEv]

lemma run_promptsShort (env : Env) (s : WorkflowState) (ps : List String)
    (h : env.promptsResult = .ok ps) (hlen : ps.length < 3) :
    processImage env s =
      ({ s with
          isLoading := false,
          status := "Failed",
          error := classifyError promptsCountError },
       [.setStatus analyzingStatus, .setError (classifyError promptsCountError),
        .setStatus "Failed", .setLoadingFalse]) := by
  simp [processImage, tryPhase, h, hlen, replay, applyEv]

lemma run_fail0 (env : Env) (s : WorkflowState) (ps : List String) (e : String)
    (hps : env.promptsResult = .ok ps) (hlen : 3 ≤ ps.length)
    (h0 : env.renderResult 0 = .error e) :
    processImage env s =
      ({ s with isLoading := false, status := "Failed", error := classifyError e },
       [.setStatus analyzingStatus, .setStatus (genStatus 0), .renderCall 0,
        .setError (classifyError e), .setStatus "Failed", .setLoadingFalse]) := by
  simp [processImage, tryPhase, renderLoopAux, hps, Nat.not_lt.mpr hlen, h0,
    replay, applyEv]

lemma run_fail1 (env : Env) (s : WorkflowState) (ps : List String) (g0 e : String)
    (hps : env.promptsResult = .ok ps) (hlen : 3 ≤ ps.length)
    (h0 : env.renderResult 0 = .ok g0) (h1 : env.renderResult 1 = .error e) :
    processImage env s =
      ({ s with
          generatedImages := [{ src := g0, prompt := ps.getD 0 "" }],
          isLoading := false,
          status := "Failed",
          error := classifyError e },
       [.setStatus analyzingStatus,
        .setStatus (genStatus 0), .renderCall 0,
        .setGeneratedImages [{ src := g0, prompt := ps.getD 0 "" }], .sleep 1000,
        .setStatus (genStatus 1), .renderCall 1,
        .setError (classifyError e), .setStatus "Failed", .setLoadingFalse]) := by
  simp [processImage, tryPhase, renderLoopAux, hps, Nat.not_lt.mpr hlen, h0, h1,
    replay, applyEv]

lemma run_fail2 (env : Env) (s : WorkflowState) (ps : List String) (g0 g1 e : String)
    (hps : env.promptsResult = .ok ps) (hlen : 3 ≤ ps.length)
    (h0 : env.renderResult 0 = .ok g0) (h1 : env.renderResult 1 = .ok g1)
    (h2 : env.renderResult 2 = .error e) :
    processImage env s =
      ({ s with
          generatedImages :=
            [{ src := g0, prompt := ps.getD 0 "" }, { src := g1, prompt := ps.getD 1 "" }],
          isLoading := false,
          status := "Failed",
          error := classifyError e },
       [.setStatus analyzingStatus,
        .setStatus (genStatus 0), .renderCall 0,
        .setGeneratedImages [{ src := g0, prompt := ps.getD 0 "" }], .sleep 1000,
        .setStatus (genStatus 1), .renderCall 1,
        .setGeneratedImages
          [{ src := g0, prompt := ps.getD 0 "" }, { src := g1, prompt := ps.getD 1 "" }],
        .sleep 1000,
        .setStatus (genStatus 2), .renderCall 2,
        .setError (classifyError e), .setStatus "Failed", .setLoadingFalse]) := by
  simp [processImage, tryPhase, renderLoopAux, hps, Nat.not_lt.mpr hlen, h0, h1, h2,
    replay, applyEv]

lemma run_allOk (env : Env) (s : WorkflowState) (ps : List String) (g0 g1 g2 : String)
    (hps : env.promptsResult = .ok ps) (hlen : 3 ≤ ps.length)
    (h0 : env.renderResult 0 = .ok g0) (h1 : env.renderResult 1 = .ok g1)
    (h2 : env.renderResult 2 = .ok g2) :
    processImage env s =
      ({ s with
          generatedImages :=
            [{ src := g0, prompt := ps.getD 0 "" }, { src := g1, prompt := ps.getD 1 "" },
             { src := g2, prompt := ps.getD 2 "" }],
          isLoading := false,
          status := "Processing complete!" },
       [.setStatus analyzingStatus,
        .setStatus (genStatus 0), .renderCall 0,
        .setGeneratedImages [{ src := g0, prompt := ps.getD 0 "" }], .sleep 1000,
        .setStatus (genStatus 1), .renderCall 1,
        .setGeneratedImages
          [{ src := g0, prompt := ps.getD 0 "" }, { src := g1, prompt := ps.getD 1 "" }],
        .sleep 1000,
        .setStatus (genStatus 2), .renderCall 2,
        .setGeneratedImages
          [{ src := g0, prompt := ps.getD 0 "" }, { src := g1, prompt := ps.getD 1 "" },
           { src := g2, prompt := ps.getD 2 "" }],
        .setStatus "Processing complete!", .setLoadingFalse]) := by
  simp [processImage, tryPhase, renderLoopAux, hps, Nat.not_lt.mpr hlen, h0, h1, h2,
    replay, applyEv]

/-- Status/error dichotomy of a run: every `processImage` run ends either in
the `Failed` status or in the completion status with the error field
untouched. -/
lemma processImage_status_or (env : Env) (s : WorkflowState) :
    (processImage env s).1.status = "Failed" ∨
    ((processImage env s).1.status = "Processing complete!" ∧
      (processImage env s).1.error = s.error) := by
  cases hps : env.promptsResult with
  | error e => rw [run_promptsFail env s e hps]; left; rfl
  | ok ps =>
    by_cases hlen : ps.length < 3
    · rw [run_promptsShort env s ps hps hlen]; left; rfl
    · have hlen' : 3 ≤ ps.length := Nat.le_of_not_lt hlen
      cases h0 : env.renderResult 0 with
      | error e => rw [run_fail0 env s ps e hps hlen' h0]; left; rfl
      | ok g0 =>
        cases h1 : env.renderResult 1 with
        | error e => rw [run_fail1 env s ps g0 e hps hlen' h0 h1]; left; rfl
        | ok g1 =>
          cases h2 : env.renderResult 2 with
          | error e => rw [run_fail2 env s ps g0 g1 e hps hlen' h0 h1 h2]; left; rfl
          | ok g2 =>
            rw [run_allOk env s ps g0 g1 g2 hps hlen' h0 h1 h2]
            right; exact ⟨rfl, rfl⟩

lemma genSets_length (tr : List Ev) : (genSets tr).length = setGenCount tr := by
  induction tr with
  | nil => rfl
  | cons e tr ih =>
    cases e <;>
      simp [genSets, genPayload, isSetGen, setGenCount, List.filterMap_cons,
        List.filter_cons] at * <;> omega

lemma replay_gen (tr : List Ev) (s : WorkflowState) :
    (replay s tr).generatedImages = (genSets tr).getLastD s.generatedImages := by
  induction tr generalizing s with
  | nil => rfl
  | cons e tr ih =>
    cases e with
    | setGeneratedImages l =>
      have h1 : (replay s (Ev.setGeneratedImages l :: tr)).generatedImages =
          (genSets tr).getLastD l := ih _
      rw [h1]
      show (genSets tr).getLastD l = (l :: genSets tr).getLastD s.generatedImages
      rw [List.getLastD_cons]
    | setStatus m => exact ih _
    | renderCall i => exact ih _
    | sleep ms => exact ih _
    | setError e2 => exact ih _
    | setLoadingFalse => exact ih _

/-- Structure of the commits of one run: there is a list `imgs` of at most 3
generated images (the successful renders, in order) such that the `j`-th
commit of the trace is exactly the first `j + 1` of them, and the number of
successful render calls of the trace equals `imgs.length`. -/
lemma processImage_genSets (env : Env) (s : WorkflowState) :
    ∃ imgs : List GeneratedImage, imgs.length ≤ 3 ∧
      genSets (processImage env s).2 =
        (List.range imgs.length).map (fun j => imgs.take (j + 1)) ∧
      ((processImage env s).2.filter (isOkCall env)).length = imgs.length := by
  cases hps : env.promptsResult with
  | error e =>
    refine ⟨[], by simp, ?_, ?_⟩ <;>
      rw [run_promptsFail env s e hps] <;> rfl
  | ok ps =>
    by_cases hlen : ps.length < 3
    · refine ⟨[], by simp, ?_, ?_⟩ <;>
        rw [run_promptsShort env s ps hps hlen] <;> rfl
    · have hlen' : 3 ≤ ps.length := Nat.le_of_not_lt hlen
      cases h0 : env.renderResult 0 with
      | error e =>
        refine ⟨[], by simp, ?_, ?_⟩ <;> rw [run_fail0 env s ps e hps hlen' h0]
        · rfl
        · simp [List.filter_cons, isOkCall, h0]
      | ok g0 =>
        cases h1 : env.renderResult 1 with
        | error e =>
          refine ⟨[{ src := g0, prompt := ps.getD 0 "" }], by simp, ?_, ?_⟩ <;>
            rw [run_fail1 env s ps g0 e hps hlen' h0 h1]
          · rfl
          · simp [List.filter_cons, isOkCall, h0, h1]
        | ok g1 =>
          cases h2 : env.renderResult 2 with
          | error e =>
            refine ⟨[{ src := g0, prompt := ps.getD 0 "" },
              { src := g1, prompt := ps.getD 1 "" }], by simp, ?_, ?_⟩ <;>
              rw [run_fail2 env s ps g0 g1 e hps hlen' h0 h1 h2]
            · rfl
            · simp [List.filter_cons, isOkCall, h0, h1, h2]
          | ok g2 =>
            refine ⟨[{ src := g0, prompt := ps.getD 0 "" },
              { src := g1, prompt := ps.getD 1 "" },
              { src := g2, prompt := ps.getD 2 "" }], by simp, ?_, ?_⟩ <;>
              rw [run_allOk env s ps g0 g1 g2 hps hlen' h0 h1 h2]
            · rfl
            · simp [List.filter_cons, isOkCall, h0, h1, h2]

lemma takePre {α : Type} (m : Nat) (l : List α) : l.take m <+: l :=
  ⟨l.drop m, List.take_append_drop m l⟩

lemma takeMono {α : Type} {a b : Nat} (h : a ≤ b) (l : List α) :
    l.take a <+: l.take b := by
  have h1 : (l.take b).take a = l.take a := by
    rw [List.take_take, Nat.min_eq_left h]
  rw [← h1]
  exact takePre a _

lemma getLastD_rangeMap (imgs : List GeneratedImage) (m : Nat) :
    (((List.range m).map (fun j => imgs.take (j + 1))).getLastD []) = imgs.take m := by
  cases m with
  | zero => rfl
  | succ k =>
    rw [List.range_succ, List.map_append]
    simp

/-- The commit lists of a trace prefix form an initial segment of the commit
lists of the whole trace. -/
lemma genSets_take_pre (tr : List Ev) (n : Nat) :
    genSets (tr.take n) <+: genSets tr := by
  refine ⟨genSets (tr.drop n), ?_⟩
  show genSets (tr.take n) ++ genSets (tr.drop n) = genSets tr
  rw [genSets, genSets, genSets, ← List.filterMap_append, List.take_append_drop]

/-- A prefix of the range-indexed take family is again such a family. -/
lemma pre_rangeMap (imgs : List GeneratedImage) (m : Nat)
    (p : List (List GeneratedImage))
    (hp : p <+: (List.range m).map (fun j => imgs.take (j + 1))) :
    p = (List.range p.length).map (fun j => imgs.take (j + 1)) ∧ p.length ≤ m := by
  obtain ⟨t, ht⟩ := hp
  have hlen : p.length ≤ m := by
    have := congrArg List.length ht
    simp only [List.length_append, List.length_map, List.length_range] at this
    omega
  constructor
  · have h1 : ((List.range m).map (fun j => imgs.take (j + 1))).take p.length = p := by
      rw [← ht]; exact List.take_left p t
    calc p = ((List.range m).map (fun j => imgs.take (j + 1))).take p.length := h1.symm
      _ = (List.range p.length).map (fun j => imgs.take (j + 1)) := by
          rw [← List.map_take, List.take_range, Nat.min_eq_left hlen]
  · exact hlen

/-! ### Claims -/

/-- C9: the reset operation, applied from any `WorkflowState` whatsoever
(mid-run, finished, or failed), yields the identical empty initial
`WorkflowState`: `originalImage` cleared, `generatedImages` empty,
`isLoading` false, status empty, error unset. -/
theorem claim9_reset_yields_initial (s : WorkflowState) :
    resetState s = initialState ∧
    (resetState s).originalImage = none ∧
    (resetState s).generatedImages = [] ∧
    (resetState s).isLoading = false ∧
    (resetState s).status = "" ∧
    (resetState s).error = "" :=
  ⟨rfl, rfl, rfl, rfl, rfl, rfl⟩

/-- C10: invoking the archive export while `originalImage` is unset or fewer
than 3 generated images exist returns immediately: no archive is produced,
no error is set, and the whole state is returned unchanged. -/
theorem claim10_download_noop (zipOk : Bool) (s : WorkflowState)
    (h : s.originalImage = none ∨ s.generatedImages.length < 3) :
    handleDownloadZip zipOk s = (s, none) := by
  have hcond : s.originalImage.getD "" = "" ∨ s.generatedImages.length < 3 := by
    rcases h with h | h
    · left; rw [h]; rfl
    · right; exact h
  rw [handleDownloadZip, if_pos hcond]

/-- Witness for C10 at the initial state. -/
theorem claim10_witness :
    handleDownloadZip true initialState = (initialState, none) :=
  claim10_download_noop true initialState (Or.inl rfl)

/-- C1 (amended): in every reachable state, a run is finished
(download-eligible) if and only if the loading flag is false and
`generatedImages` has exactly 3 entries; the error field is not part of the
predicate. -/
theorem claim1_finished_iff (s : WorkflowState) (_h : Reachable s) :
    isFinished s = true ↔ (s.isLoading = false ∧ s.generatedImages.length = 3) := by
  simp [isFinished, Bool.and_eq_true, Bool.not_eq_true', beq_iff_eq]

/-- C1 counterexample: the claimed equivalence with the three conditions
(loading false, error unset, exactly 3 images) fails on a reachable state:
after a fully successful run followed by a failed archive export, the error
field is set while `isFinished` still holds. -/
theorem claim1_counterexample :
    ¬ ∀ s : WorkflowState, Reachable s →
      (isFinished s = true ↔
        (s.isLoading = false ∧ s.error = "" ∧ s.generatedImages.length = 3)) := by
  intro h
  have h1 : Reachable runOkState :=
    Reachable.upload initialState "image/png" "QUJD" true envAllOk Reachable.init rfl rfl
  have hre : Reachable zipFailState :=
    Reachable.download runOkState false h1 (by decide) (by decide)
  have h2 := (h zipFailState hre).mp (by decide)
  exact absurd h2.2.1 (by decide)

/-- Witness for C1 at the (reachable) initial state. -/
theorem claim1_witness :
    isFinished initialState = true ↔
      (initialState.isLoading = false ∧ initialState.generatedImages.length = 3) :=
  claim1_finished_iff initialState Reachable.init

lemma classifyError_ne_empty {e : String} (he : e ≠ "") : classifyError e ≠ "" := by
  rw [classifyError]
  split
  · decide
  · exact he

/-- C2 (amended): prompt derivation is validated to yield exactly three
prompt strings (the adapter rejects any other count, so the result is never
truncated or padded), and when the orchestrator receives fewer than three it
fails with the user-facing rotation-angle error before any render call
occurs, leaving `generatedImages` empty. -/
theorem claim2_prompt_validation :
    (∀ resp ps, getRotationPrompts resp = .ok ps → ps.length = 3) ∧
    (∀ (env : Env) (s : WorkflowState) (ps : List String),
      env.promptsResult = .ok ps → ps.length < 3 → s.generatedImages = [] →
      (processImage env s).1.error = promptsCountError ∧
      (processImage env s).1.generatedImages = [] ∧
      ∀ i, Ev.renderCall i ∉ (processImage env s).2) := by
  constructor
  · intro resp ps h
    cases resp with
    | parseError => simp [getRotationPrompts] at h
    | parsed pf =>
      cases pf with
      | none => simp [getRotationPrompts] at h
      | some l =>
        simp only [getRotationPrompts] at h
        split at h
        · next hl => cases h; exact hl
        · simp at h
  · intro env s ps hps hlen hgen
    rw [run_promptsShort env s ps hps hlen]
    refine ⟨?_, hgen, ?_⟩
    · show classifyError promptsCountError = promptsCountError
      decide
    intro i hi
    simp at hi

/-- C2 counterexample: the validation does not require the three prompt
strings to be non-empty — a response whose `prompts` array is three empty
strings passes and the run proceeds. -/
theorem claim2_counterexample :
    ¬ ∀ resp ps, getRotationPrompts resp = .ok ps →
      (ps.length = 3 ∧ ∀ p ∈ ps, p ≠ "") := by
  intro h
  have h2 := h (.parsed (some ["", "", ""])) ["", "", ""] rfl
  exact absurd rfl (h2.2 "" (by simp))

/-- Witness for C2: with a two-prompt response the run ends with the
rotation-angle error, no generated images, and no render call. -/
theorem claim2_witness :
    (processImage envShortPrompts initialState).1.error = promptsCountError ∧
    (processImage envShortPrompts initialState).1.generatedImages = [] ∧
    Ev.renderCall 0 ∉ (processImage envShortPrompts initialState).2 := by
  have h := claim2_prompt_validation.2 envShortPrompts initialState ["a", "b"]
    rfl (by decide) rfl
  exact ⟨h.1, h.2.1, h.2.2 0⟩

/-- C3: if the `i`-th render call (0-indexed) fails after `i` successes,
the run ends with exactly `i` generated images (the successes, in order,
not rolled back), a set error field, and no render call beyond index `i`. -/
theorem claim3_render_failure (env : Env) (s : WorkflowState) (ps : List String)
    (i : Nat) (e : String)
    (hps : env.promptsResult = .ok ps) (hlen : 3 ≤ ps.length)
    (hgen : s.generatedImages = []) (hi : i < 3)
    (hok : ∀ j, j < i → ∃ g, env.renderResult j = .ok g)
    (hfail : env.renderResult i = .error e) (he : e ≠ "") :
    (processImage env s).1.generatedImages.length = i ∧
    (processImage env s).1.error ≠ "" ∧
    (∀ j, Ev.renderCall j ∈ (processImage env s).2 → j ≤ i) ∧
    (∀ j, j < i → ∃ g, env.renderResult j = .ok g ∧
      (processImage env s).1.generatedImages.getD j { src := "", prompt := "" } =
        { src := g, prompt := ps.getD j "" }) := by
  interval_cases i
  · rw [run_fail0 env s ps e hps hlen hfail]
    refine ⟨by simp [hgen], classifyError_ne_empty he, ?_, ?_⟩
    · intro j hj
      simp at hj
      omega
    · intro j hj
      omega
  · obtain ⟨g0, h0⟩ := hok 0 (by omega)
    rw [run_fail1 env s ps g0 e hps hlen h0 hfail]
    refine ⟨rfl, classifyError_ne_empty he, ?_, ?_⟩
    · intro j hj
      simp at hj
      omega
    · intro j hj
      have hj0 : j = 0 := by omega
      subst hj0
      exact ⟨g0, h0, rfl⟩
  · obtain ⟨g0, h0⟩ := hok 0 (by omega)
    obtain ⟨g1, h1⟩ := hok 1 (by omega)
    rw [run_fail2 env s ps g0 g1 e hps hlen h0 h1 hfail]
    refine ⟨rfl, classifyError_ne_empty he, ?_, ?_⟩
    · intro j hj
      simp at hj
      omega
    · intro j hj
      match j, hj with
      | 0, _ => exact ⟨g0, h0, rfl⟩
      | 1, _ => exact ⟨g1, h1, rfl⟩

/-- Witness for C3 at a run whose second render call fails. -/
theorem claim3_witness :
    (processImage envFailAt1 initialState).1.generatedImages.length = 1 ∧
    (processImage envFailAt1 initialState).1.error ≠ "" := by
  have h := claim3_render_failure envFailAt1 initialState ["p1", "p2", "p3"] 1 "boom"
    rfl (by decide) rfl (by decide)
    (by
      intro j hj
      have hj0 : j = 0 := by omega
      subst hj0
      exact ⟨"IMG", rfl⟩)
    rfl (by decide)
  exact ⟨h.1, h.2.1⟩

/-- C5: once the prompts are validated, the render calls of a run are
strictly sequential in index order, a single fixed 1000 ms pause separates
every two successive render calls, and no pause follows the last call: the
call/pause subtrace of every run is one of the three patterns below. -/
theorem claim5_sequential_throttle (env : Env) (s : WorkflowState) (ps : List String)
    (hps : env.promptsResult = .ok ps) (hlen : 3 ≤ ps.length) :
    (processImage env s).2.filter isCallOrSleep = [Ev.renderCall 0] ∨
    (processImage env s).2.filter isCallOrSleep =
      [Ev.renderCall 0, Ev.sleep 1000, Ev.renderCall 1] ∨
    (processImage env s).2.filter isCallOrSleep =
      [Ev.renderCall 0, Ev.sleep 1000, Ev.renderCall 1, Ev.sleep 1000,
        Ev.renderCall 2] := by
  cases h0 : env.renderResult 0 with
  | error e =>
    left
    rw [run_fail0 env s ps e hps hlen h0]
    rfl
  | ok g0 =>
    cases h1 : env.renderResult 1 with
    | error e =>
      right; left
      rw [run_fail1 env s ps g0 e hps hlen h0 h1]
      rfl
    | ok g1 =>
      cases h2 : env.renderResult 2 with
      | error e =>
        right; right
        rw [run_fail2 env s ps g0 g1 e hps hlen h0 h1 h2]
        rfl
      | ok g2 =>
        right; right
        rw [run_allOk env s ps g0 g1 g2 hps hlen h0 h1 h2]
        rfl

/-- Witness for C5 at the all-success environment. -/
theorem claim5_witness :
    (processImage envAllOk initialState).2.filter isCallOrSleep = [Ev.renderCall 0] ∨
    (processImage envAllOk initialState).2.filter isCallOrSleep =
      [Ev.renderCall 0, Ev.sleep 1000, Ev.renderCall 1] ∨
    (processImage envAllOk initialState).2.filter isCallOrSleep =
      [Ev.renderCall 0, Ev.sleep 1000, Ev.renderCall 1, Ev.sleep 1000,
        Ev.renderCall 2] :=
  claim5_sequential_throttle envAllOk initialState ["p1", "p2", "p3"] rfl (by decide)

/-- C6: whatever stage fails, the user-visible error is the quota message
exactly when the underlying message signals resource exhaustion
(`RESOURCE_EXHAUSTED`) or a rate-limit status (`429`); any other message is
surfaced verbatim as the generic error. -/
theorem claim6_error_classification (env : Env) (s : WorkflowState) (e : String)
    (h : runFailsWith env e) :
    (processImage env s).1.error = classifyError e ∧
    ((includes e "RESOURCE_EXHAUSTED" || includes e "429") = true →
      (processImage env s).1.error = quotaMessage) ∧
    ((includes e "RESOURCE_EXHAUSTED" || includes e "429") = false →
      (processImage env s).1.error = e) := by
  have herr : (processImage env s).1.error = classifyError e := by
    rcases h with h | ⟨ps, hps, hlen, i, hi, hfail, hok⟩
    · rw [run_promptsFail env s e h]
    · interval_cases i
      · rw [run_fail0 env s ps e hps hlen hfail]
      · obtain ⟨g0, h0⟩ := hok 0 (by omega)
        rw [run_fail1 env s ps g0 e hps hlen h0 hfail]
      · obtain ⟨g0, h0⟩ := hok 0 (by omega)
        obtain ⟨g1, h1⟩ := hok 1 (by omega)
        rw [run_fail2 env s ps g0 g1 e hps hlen h0 h1 hfail]
  refine ⟨herr, ?_, ?_⟩ <;> intro hcond <;> rw [herr] <;> simp [classifyError, hcond]

/-- Witness for C6: a 429-flavoured failure surfaces the quota message. -/
theorem claim6_witness :
    (processImage envQuota initialState).1.error =
      classifyError "got status 429 from service" ∧
    ((includes "got status 429 from service" "RESOURCE_EXHAUSTED" ||
        includes "got status 429 from service" "429") = true →
      (processImage envQuota initialState).1.error = quotaMessage) ∧
    ((includes "got status 429 from service" "RESOURCE_EXHAUSTED" ||
        includes "got status 429 from service" "429") = false →
      (processImage envQuota initialState).1.error = "got status 429 from service") :=
  claim6_error_classification envQuota initialState "got status 429 from service"
    (Or.inl rfl)

lemma zipGeneratedEntries_three (x0 x1 x2 : GeneratedImage) :
    zipGeneratedEntries [x0, x1, x2] =
      [("generated_1.png", x0.src), ("generated_2.png", x1.src),
       ("generated_3.png", x2.src)] := by
  show (List.range 3).map _ = _
  rw [show List.range 3 = [0, 1, 2] from rfl]
  simp only [List.map_cons, List.map_nil]
  exact rfl

lemma dataUri_ne_empty (a b : String) : "data:" ++ a ++ ";base64," ++ b ≠ "" := by
  intro hstr
  have hlen := congrArg String.length hstr
  rw [String.length_append, String.length_append, String.length_append] at hlen
  have h5 : ("data:" : String).length = 5 := rfl
  have h8 : (";base64," : String).length = 8 := rfl
  have h0 : ("" : String).length = 0 := rfl
  rw [h5, h8, h0] at hlen
  omega

/-- C7: after a fully successful run (a successful upload resets the state
first, so the starting state is arbitrary), the archive
export produces exactly four entries in the fixed order: the original image
first, as `original.png`, then the three generated images in generation
order as `generated_1.png` .. `generated_3.png`. -/
theorem claim7_zip_entries (fileType b64 : String) (env : Env) (ps : List String)
    (g0 g1 g2 : String) (s : WorkflowState)
    (hps : env.promptsResult = .ok ps) (hlen : 3 ≤ ps.length)
    (h0 : env.renderResult 0 = .ok g0) (h1 : env.renderResult 1 = .ok g1)
    (h2 : env.renderResult 2 = .ok g2) :
    (handleDownloadZip true (uploadStep fileType b64 true env s)).2 =
      some [("original.png", "data:" ++ fileType ++ ";base64," ++ b64),
            ("generated_1.png", g0), ("generated_2.png", g1),
            ("generated_3.png", g2)] := by
  have hrun : uploadStep fileType b64 true env s =
      { originalImage := some ("data:" ++ fileType ++ ";base64," ++ b64),
        generatedImages :=
          [{ src := g0, prompt := ps.getD 0 "" }, { src := g1, prompt := ps.getD 1 "" },
           { src := g2, prompt := ps.getD 2 "" }],
        isLoading := false,
        status := "Processing complete!",
        error := "" } := by
    show (processImage env
      { originalImage := some ("data:" ++ fileType ++ ";base64," ++ b64),
        generatedImages := [], isLoading := true, status := "Reading image...",
        error := "" }).1 = _
    rw [run_allOk env _ ps g0 g1 g2 hps hlen h0 h1 h2]
  rw [hrun, handleDownloadZip]
  rw [if_neg ?hcond]
  case hcond =>
    rw [not_or]
    constructor
    · show ¬("data:" ++ fileType ++ ";base64," ++ b64 = "")
      exact dataUri_ne_empty fileType b64
    · simp
  show some (("original.png", "data:" ++ fileType ++ ";base64," ++ b64) ::
      zipGeneratedEntries
        [{ src := g0, prompt := ps.getD 0 "" }, { src := g1, prompt := ps.getD 1 "" },
         { src := g2, prompt := ps.getD 2 "" }]) = _
  rw [zipGeneratedEntries_three]

/-- Witness for C7 at a concrete upload and all-success environment. -/
theorem claim7_witness :
    (handleDownloadZip true (uploadStep "image/png" "QUJD" true envAllOk initialState)).2 =
      some [("original.png", "data:" ++ "image/png" ++ ";base64," ++ "QUJD"),
            ("generated_1.png", "IMG"), ("generated_2.png", "IMG"),
            ("generated_3.png", "IMG")] :=
  claim7_zip_entries "image/png" "QUJD" envAllOk ["p1", "p2", "p3"] "IMG" "IMG" "IMG"
    initialState rfl (by decide) rfl rfl rfl

/-- In every reachable steady state with the error field set, the status is
one of the three non-progress strings. -/
lemma reachable_error_status (s : WorkflowState) (h : Reachable s) :
    s.error ≠ "" →
    s.status = "" ∨ s.status = "Failed" ∨ s.status = "Download complete!" := by
  induction h with
  | init => intro he; exact absurd rfl he
  | upload s ft b64 readOk env _ _ _ ih =>
    intro he
    cases readOk with
    | false => left; rfl
    | true =>
      have hd := processImage_status_or env
        { originalImage := some ("data:" ++ ft ++ ";base64," ++ b64),
          generatedImages := [], isLoading := true, status := "Reading image...",
          error := "" }
      rcases hd with hst | ⟨hst, herr⟩
      · right; left; exact hst
      · exact absurd herr he
  | download s zipOk _ _ _ ih =>
    intro he
    by_cases hc : s.originalImage.getD "" = "" ∨ s.generatedImages.length < 3
    · have hstep : downloadStep zipOk s = s := by
        rw [downloadStep, handleDownloadZip, if_pos hc]
      rw [hstep] at he ⊢
      exact ih he
    · cases zipOk with
      | true =>
        have hstep : downloadStep true s = { s with status := "Download complete!" } := by
          rw [downloadStep, handleDownloadZip, if_neg hc]
          exact rfl
        rw [hstep]
        right; right; rfl
      | false =>
        have hstep : downloadStep false s =
            { s with error := "Failed to create ZIP file.", status := "Failed" } := by
          rw [downloadStep, handleDownloadZip, if_neg hc]
          exact rfl
        rw [hstep]
        right; left; rfl
  | reset s _ _ _ _ =>
    intro he
    exact absurd rfl he

/-- C4: in every reachable steady state, a set error field excludes a
progress-describing status message: the status is then empty, `Failed`, or
`Download complete!`, none of which is a progress label. -/
theorem claim4_error_excludes_progress (s : WorkflowState) (h : Reachable s)
    (he : s.error ≠ "") : isProgressStatus s.status = false := by
  rcases reachable_error_status s h he with hst | hst | hst <;> rw [hst] <;> decide

/-- Witness for C4 at the reachable archive-failure state. -/
theorem claim4_witness :
    zipFailState.error ≠ "" ∧ isProgressStatus zipFailState.status = false := by
  have h1 : Reachable runOkState :=
    Reachable.upload initialState "image/png" "QUJD" true envAllOk Reachable.init rfl rfl
  have hre : Reachable zipFailState :=
    Reachable.download runOkState false h1 (by decide) (by decide)
  exact ⟨by decide, claim4_error_excludes_progress zipFailState hre (by decide)⟩

lemma setGenCount_take_mono (tr : List Ev) (n : Nat) :
    setGenCount (tr.take n) ≤ setGenCount (tr.take (n + 1)) := by
  have h1 : tr.take n = (tr.take (n + 1)).take n := by
    rw [List.take_take, Nat.min_eq_left (by omega)]
  have h2 : List.Sublist (tr.take n) (tr.take (n + 1)) :=
    h1 ▸ List.take_sublist n (tr.take (n + 1))
  exact List.Sublist.length_le (h2.filter isSetGen)

/-- C8: starting from the empty list, the generated-image list of the state
observed after any number of events of a run has at most 3 entries, grows by
appending only (each observation point is a list-prefix of the next, so
entries are never removed or reordered), its length always equals the number
of commits performed by successful render calls so far, and over the whole
run the commits correspond exactly to the successful render calls. -/
theorem claim8_images_monotone (env : Env) (s : WorkflowState)
    (hgen : s.generatedImages = []) :
    (∀ n, (replay s ((processImage env s).2.take n)).generatedImages.length ≤ 3) ∧
    (∀ n, (replay s ((processImage env s).2.take n)).generatedImages <+:
      (replay s ((processImage env s).2.take (n + 1))).generatedImages) ∧
    (∀ n, (replay s ((processImage env s).2.take n)).generatedImages.length =
      setGenCount ((processImage env s).2.take n)) ∧
    setGenCount (processImage env s).2 =
      ((processImage env s).2.filter (isOkCall env)).length := by
  obtain ⟨imgs, himgs, hsets, hcalls⟩ := processImage_genSets env s
  have key : ∀ n,
      (replay s ((processImage env s).2.take n)).generatedImages =
        imgs.take (setGenCount ((processImage env s).2.take n)) ∧
      setGenCount ((processImage env s).2.take n) ≤ imgs.length := by
    intro n
    have hpre := genSets_take_pre (processImage env s).2 n
    rw [hsets] at hpre
    obtain ⟨heq, hle⟩ := pre_rangeMap imgs imgs.length _ hpre
    have hm : (genSets ((processImage env s).2.take n)).length =
        setGenCount ((processImage env s).2.take n) := genSets_length _
    rw [hm] at heq hle
    constructor
    · rw [replay_gen, hgen, heq, getLastD_rangeMap]
    · exact hle
  refine ⟨?_, ?_, ?_, ?_⟩
  · intro n
    obtain ⟨hgeq, hle⟩ := key n
    rw [hgeq, List.length_take]
    have := Nat.min_le_right (setGenCount ((processImage env s).2.take n)) imgs.length
    omega
  · intro n
    obtain ⟨hgeq1, _⟩ := key n
    obtain ⟨hgeq2, _⟩ := key (n + 1)
    rw [hgeq1, hgeq2]
    exact takeMono (setGenCount_take_mono (processImage env s).2 n) imgs
  · intro n
    obtain ⟨hgeq, hle⟩ := key n
    rw [hgeq, List.length_take, Nat.min_eq_left hle]
  · rw [← genSets_length, hsets, ← hcalls]
    simp

/-- Witness for C8 at the all-success environment: the mid-run observation
after 5 events and the whole-run call/commit count equality. -/
theorem claim8_witness :
    (replay initialState
      ((processImage envAllOk initialState).2.take 5)).generatedImages.length ≤ 3 ∧
    setGenCount (processImage envAllOk initialState).2 =
      ((processImage envAllOk initialState).2.filter (isOkCall envAllOk)).length := by
  have h := claim8_images_monotone envAllOk initialState rfl
  exact ⟨h.1 5, h.2.2.2⟩

end ObjectRotator
